import Mathlib

/-!
Verification development for the minio2rustfs object-migration engine.

The definitions below are a shallow embedding of the Go sources:
  * `worker` : internal/worker (task.go, processor, pool)
  * `checkpoint` : internal/checkpoint/store.go
  * `progress` : internal/progress/tracker.go
  * `config` : internal/config/config.go
  * `app` : internal/app/app.go together with cmd/main.go

Modelling conventions:
  * Go `int64` object sizes are modelled as `Nat`: every size reaching the
    worker comes from an S3 `ObjectInfo.Size` and is non-negative.
  * Go `int` retry counts are modelled as `Int` because the configuration can
    carry zero or negative values (nothing validates them).
  * Go `error` values are modelled as `Option String` / `Except String _`
    carrying the error message, since the engine classifies errors purely by
    substring matching on the message.
  * Time-valued fields (`UpdatedAt`, speed samples, durations, backoff
    sleeping) are outside the embedding; sleeping is recorded as an event.
  * Calls to the storage clients and to the checkpoint/metrics collaborators
    are recorded as explicit traces so that theorems can speak about which
    calls a run performs.
-/

set_option maxHeartbeats 1000000

/-! ### String helpers used by the error classifier

Go `strings.ToLower` and `strings.Contains` modelled over `List Char`. -/

def lowerStr (s : String) : String :=
  String.mk (s.data.map Char.toLower)

def containsSub (s pat : String) : Bool :=
  decide (List.IsInfix pat.data s.data)

namespace worker

/-- From internal/worker/task.go: the in-memory transfer unit. -/
structure Task where
  bucket : String
  key : String
  size : Nat
  etag : String
  contentType : String
  metadata : List (String × String)
deriving DecidableEq

/-- From internal/worker/task.go: worker configuration. -/
structure Config where
  multipartThreshold : Nat
  partSize : Nat
  retries : Int
  retryBackoffMs : Int
  skipExisting : Bool
deriving DecidableEq

/-- TaskProcessor.isRetriableError from processor source: lowercases the
message and checks network-class substrings and HTTP 5xx phrases. -/
def isRetriableError (msg : String) : Bool :=
  let errStr := lowerStr msg
  containsSub errStr "timeout" ||
  containsSub errStr "connection" ||
  containsSub errStr "temporary" ||
  containsSub errStr "network" ||
  containsSub errStr "dns" ||
  containsSub errStr "500" ||
  containsSub errStr "502" ||
  containsSub errStr "503" ||
  containsSub errStr "504" ||
  containsSub errStr "internal server error" ||
  containsSub errStr "bad gateway" ||
  containsSub errStr "service unavailable" ||
  containsSub errStr "gateway timeout"

end worker

namespace storage

/-- From internal/storage/client.go: a completed multipart part. -/
structure CompletedPart where
  partNumber : Nat
  etag : String
deriving DecidableEq

/-- From internal/storage/client.go: object metadata returned by HeadObject.
`LastModified` (a time) is omitted; it is never read by the engine. -/
structure ObjectInfo where
  key : String
  size : Nat
  etag : String
  contentType : String
deriving DecidableEq

/-- One call issued to the destination storage client.  The trace of these
calls is the observable behaviour of a transfer. -/
inductive DstCall where
  | putObject (bucket key : String) (size : Nat)
  | newMultipart (bucket key : String)
  | uploadPart (bucket key uploadID : String) (partNumber : Nat) (size : Nat)
  | completeMultipart (bucket key uploadID : String) (parts : List CompletedPart)
  | abortMultipart (bucket key uploadID : String)
deriving DecidableEq

/-- Recognises a CompleteMultipartUpload call in a trace. -/
def isCompleteCall : DstCall → Bool
  | .completeMultipart _ _ _ _ => true
  | _ => false

end storage

namespace worker

/-- Environment for one processTask transfer attempt: the responses the
source/destination clients give to each call.  `getObjectResult` carries the
number of bytes the source stream will actually deliver. -/
structure MpEnv where
  getObjectResult : Except String Nat
  putResult : Except String Unit
  newMultipartResult : Except String String
  readErrAt : Nat → Option String
  uploadPartResult : Nat → Except String String
  completeResult : List storage.CompletedPart → Except String Unit

/-- Part count as computed by uploadMultipart:
`int(math.Ceil(float64(size)/float64(partSize)))`.  For the sizes the engine
handles (exactly representable in float64) this equals the Nat ceiling. -/
def partCountOf (size partSize : Nat) : Nat :=
  (size + partSize - 1) / partSize

/-- The per-part size computed at the top of the upload loop:
`partSize`, clamped to `size - (partNum-1)*partSize` for the final part. -/
def goPartSize (partSize size partNum : Nat) : Nat :=
  if (partNum - 1) * partSize + partSize > size then
    size - (partNum - 1) * partSize
  else
    partSize

/-- The `for partNum := 1; partNum <= partCount; partNum++` loop of
TaskProcessor.uploadMultipart.  `fuel` is the number of loop iterations left,
`remaining` the bytes the source stream can still deliver, `acc` the
collected completed parts.  Each iteration: compute the part size, ReadFull
from the stream (io.EOF aborts, io.ErrUnexpectedEOF is tolerated as a short
final read), UploadPart, and on any failure AbortMultipartUpload and stop. -/
def uploadPartsLoop (env : MpEnv) (b k uid : String) (partSize size : Nat) :
    Nat → Nat → Nat → List storage.CompletedPart →
    List storage.DstCall × Except String (List storage.CompletedPart)
  | _, 0, _, acc => ([], .ok acc)
  | partNum, fuel' + 1, remaining, acc =>
    let ps := goPartSize partSize size partNum
    match env.readErrAt partNum with
    | some e => ([.abortMultipart b k uid], .error ("failed to read part: " ++ e))
    | none =>
      let n := min ps remaining
      if n = 0 ∧ ps ≠ 0 then
        ([.abortMultipart b k uid], .error "failed to read part: EOF")
      else
        match env.uploadPartResult partNum with
        | .error e =>
          ([.uploadPart b k uid partNum n, .abortMultipart b k uid],
           .error ("failed to upload part: " ++ e))
        | .ok etag =>
          let rest := uploadPartsLoop env b k uid partSize size
            (partNum + 1) fuel' (remaining - n) (acc ++ [⟨partNum, etag⟩])
          (.uploadPart b k uid partNum n :: rest.1, rest.2)

/-- TaskProcessor.uploadMultipart: initiate, run the part loop, then either
propagate the loop failure (the loop already issued the abort) or call
CompleteMultipartUpload with the collected part list. -/
def uploadMultipart (env : MpEnv) (b k : String) (partSize size streamLen : Nat) :
    List storage.DstCall × Except String Unit :=
  match env.newMultipartResult with
  | .error e => ([], .error ("failed to initiate multipart upload: " ++ e))
  | .ok uid =>
    let res := uploadPartsLoop env b k uid partSize size 1 (partCountOf size partSize) streamLen []
    match res.2 with
    | .error e => (.newMultipart b k :: res.1, .error e)
    | .ok parts =>
      (.newMultipart b k :: res.1 ++ [.completeMultipart b k uid parts],
       match env.completeResult parts with
       | .error e => .error e
       | .ok _ => .ok ())

/-- TaskProcessor.processTask's transfer dispatch: fetch the source stream,
then single-shot PUT below the multipart threshold, multipart otherwise. -/
def processTaskTransfer (cfg : Config) (env : MpEnv) (task : Task) :
    List storage.DstCall × Except String Unit :=
  match env.getObjectResult with
  | .error e => ([], .error ("failed to get source object: " ++ e))
  | .ok streamLen =>
    if task.size < cfg.multipartThreshold then
      ([.putObject task.bucket task.key task.size],
       match env.putResult with
       | .error e => .error e
       | .ok _ => .ok ())
    else
      uploadMultipart env task.bucket task.key cfg.partSize task.size streamLen

end worker

namespace checkpoint

/-- From internal/checkpoint/store.go: task record status. -/
inductive TaskStatus where
  | pending
  | inProgress
  | completed
  | failed
deriving DecidableEq

/-- From internal/checkpoint/store.go: a durable task record.
`UpdatedAt` (set by the store on save) is a wall-clock time and is omitted. -/
structure TaskRecord where
  bucket : String
  key : String
  size : Nat
  etag : String
  status : TaskStatus
  attempts : Int
  lastError : String
deriving DecidableEq

end checkpoint

namespace worker

/-- The record markCompleted builds: only Bucket/Key/Size/ETag/Status are
assigned; `Attempts` and `LastError` keep their Go zero values. -/
def completedRecord (task : Task) : checkpoint.TaskRecord :=
  { bucket := task.bucket, key := task.key, size := task.size,
    etag := task.etag, status := .completed, attempts := 0, lastError := "" }

/-- The record markFailed builds from a non-nil error: `Attempts` keeps its
Go zero value and `LastError` is the error message. -/
def failedRecord (task : Task) (msg : String) : checkpoint.TaskRecord :=
  { bucket := task.bucket, key := task.key, size := task.size,
    etag := task.etag, status := .failed, attempts := 0, lastError := msg }

/-- Environment for TaskProcessor.Process: responses of the checkpoint store,
the destination HeadObject, and the outcome of each processTask attempt
(`none` = the attempt succeeded, `some msg` = it failed with that message). -/
structure ProcEnv where
  getTaskResult : Except String (Option checkpoint.TaskRecord)
  headResult : Except String storage.ObjectInfo
  attemptResult : Int → Option String

/-- Observable side effects of one Process run: checkpoint saves, metrics
calls, transfer attempts and retry sleeps, in program order. -/
inductive Event where
  | saveTask (record : checkpoint.TaskRecord)
  | incSkippedWithBytes (bytes : Nat)
  | incSuccessWithBytes (bytes : Nat)
  | addBytes (bytes : Nat)
  | observeDuration
  | incFailed
  | attemptTransfer (attempt : Int)
  | sleep (attempt : Int)
deriving DecidableEq

/-- Summary of how one Process run terminated.  `panicked` marks the nil
pointer dereference `err.Error()` in markFailed when `lastErr` is nil. -/
inductive ProcResult where
  | skippedCompleted
  | skippedExisting
  | succeeded (attemptsUsed : Int)
  | failed (attemptsUsed : Int) (lastErr : String)
  | panicked (attemptsUsed : Int)
deriving DecidableEq

/-- The first check of Process: checkpoint lookup succeeded, a record exists,
its status is completed, and SkipExisting is set. -/
def skipCompletedCheck (cfg : Config) (env : ProcEnv) : Bool :=
  match env.getTaskResult with
  | .ok (some record) => record.status == .completed && cfg.skipExisting
  | _ => false

/-- TaskProcessor.objectExistsAndMatches: HeadObject on the destination, then
compare size and etag with the task; any HeadObject error means no match. -/
def objectExistsAndMatches (env : ProcEnv) (task : Task) : Bool :=
  match env.headResult with
  | .error _ => false
  | .ok info => info.size == task.size && info.etag == task.etag

/-- Code after the retry loop: markFailed(task, lastErr) and IncFailed.
markFailed calls `err.Error()`, which panics when lastErr is nil. -/
def finishFailure (task : Task) (attemptsUsed : Int) :
    Option String → ProcResult × List Event
  | none => (.panicked attemptsUsed, [])
  | some msg => (.failed attemptsUsed msg,
      [.saveTask (failedRecord task msg), .incFailed])

/-- The retry loop of Process (`for attempt := 1; attempt <= Retries`).
`fuel` is the number of iterations left; on success the task is marked
completed and success metrics fire; a retriable failure sleeps (when another
attempt remains) and retries; a non-retriable failure breaks out. -/
def retryLoopAux (env : ProcEnv) (task : Task) (retries : Int) :
    Int → Nat → Option String → ProcResult × List Event
  | attempt, 0, lastErr => finishFailure task (attempt - 1) lastErr
  | attempt, fuel' + 1, _ =>
    match env.attemptResult attempt with
    | none =>
      (.succeeded attempt,
       [.attemptTransfer attempt, .saveTask (completedRecord task),
        .incSuccessWithBytes task.size, .addBytes task.size, .observeDuration])
    | some e =>
      if isRetriableError e then
        let rest := retryLoopAux env task retries (attempt + 1) fuel' (some e)
        (rest.1, .attemptTransfer attempt ::
          ((if attempt < retries then [Event.sleep attempt] else []) ++ rest.2))
      else
        (.failed attempt e,
         [.attemptTransfer attempt, .saveTask (failedRecord task e), .incFailed])

/-- TaskProcessor.Process: skip when the checkpoint already records the task
completed; otherwise skip when the destination object matches by size+etag
(marking completed); otherwise run the retry loop. -/
def Process (cfg : Config) (env : ProcEnv) (task : Task) :
    ProcResult × List Event :=
  if skipCompletedCheck cfg env then
    (.skippedCompleted, [.incSkippedWithBytes task.size])
  else if cfg.skipExisting && objectExistsAndMatches env task then
    (.skippedExisting,
     [.saveTask (completedRecord task), .incSkippedWithBytes task.size])
  else
    retryLoopAux env task cfg.retries 1 cfg.retries.toNat none

/-- The checkpoint records a run attempts to save, in order. -/
def savedRecords (events : List Event) : List checkpoint.TaskRecord :=
  events.filterMap fun ev =>
    match ev with
    | .saveTask r => some r
    | _ => none

/-- Whether an event is a processTask transfer attempt. -/
def isAttemptEvent : Event → Bool
  | .attemptTransfer _ => true
  | _ => false

/-- Number of processTask transfer attempts recorded in a trace. -/
def countAttempts (events : List Event) : Nat :=
  events.countP isAttemptEvent

end worker

namespace progress

/-- From internal/progress/tracker.go: the counter part of Status.  The
time- and speed-derived fields (start/update times, speeds, ETA) are
real-time floating point quantities outside this embedding and none of the
claims concern them.  Counters are int64, modelled as Int. -/
structure Status where
  totalObjects : Int
  processedObjects : Int
  successObjects : Int
  failedObjects : Int
  skippedObjects : Int
  totalBytes : Int
  processedBytes : Int
deriving DecidableEq

/-- Tracker.AddSuccess: success+1, processed+1, processedBytes+bytes. -/
def AddSuccess (t : Status) (bytes : Int) : Status :=
  { t with successObjects := t.successObjects + 1,
           processedObjects := t.processedObjects + 1,
           processedBytes := t.processedBytes + bytes }

/-- Tracker.AddFailed: failed+1, processed+1, bytes unchanged. -/
def AddFailed (t : Status) : Status :=
  { t with failedObjects := t.failedObjects + 1,
           processedObjects := t.processedObjects + 1 }

/-- Tracker.AddSkipped: skipped+1, processed+1, processedBytes+bytes. -/
def AddSkipped (t : Status) (bytes : Int) : Status :=
  { t with skippedObjects := t.skippedObjects + 1,
           processedObjects := t.processedObjects + 1,
           processedBytes := t.processedBytes + bytes }

/-- The counter invariant of the spec: processed = success+failed+skipped. -/
def counterInvariant (t : Status) : Prop :=
  t.processedObjects = t.successObjects + t.failedObjects + t.skippedObjects

end progress

namespace metrics

/-- Modelled from the spec: the metrics Collector (package
internal/metrics, absent from src/) "delegates per-object
success/failure/skip with byte sizes to the Progress Tracker" (§4.4), so
IncSuccessWithBytes/IncFailed/IncSkippedWithBytes forward to
Tracker.AddSuccess/AddFailed/AddSkipped.  AddBytes and ObserveDuration feed
only the Prometheus counters/histogram, not the tracker. -/
def applyEvent (t : progress.Status) : worker.Event → progress.Status
  | .incSuccessWithBytes n => progress.AddSuccess t (n : Int)
  | .incSkippedWithBytes n => progress.AddSkipped t (n : Int)
  | .incFailed => progress.AddFailed t
  | _ => t

/-- Effect of a whole event trace on the progress tracker. -/
def applyEvents (events : List worker.Event) (t : progress.Status) :
    progress.Status :=
  events.foldl applyEvent t

end metrics

namespace checkpoint

/-- State of a SQLiteStore: its own `closed` flag and the state of the
underlying sql.DB handle (`dbOpen`), plus the rows of the tasks table. -/
structure StoreState where
  closed : Bool
  dbOpen : Bool
  rows : List TaskRecord
deriving DecidableEq

/-- Row match on the (bucket,key) primary key. -/
def rowMatches (b k : String) (r : TaskRecord) : Bool :=
  r.bucket == b && r.key == k

/-- SQLiteStore.GetTask: rejects when the store's closed flag is set, then
pings the database (failing when the handle is closed), then reads the row;
absent rows yield `ok none`. -/
def GetTask (s : StoreState) (b k : String) :
    Except String (Option TaskRecord) :=
  if s.closed then .error "database store is closed"
  else if !s.dbOpen then .error "database connection is not available"
  else .ok (s.rows.find? (rowMatches b k))

/-- SQLiteStore.SaveTask: same closed/ping checks, then an upsert keyed on
(bucket,key). -/
def SaveTask (s : StoreState) (record : TaskRecord) :
    Except String StoreState :=
  if s.closed then .error "database store is closed"
  else if !s.dbOpen then .error "database connection is not available"
  else if s.rows.any (rowMatches record.bucket record.key) then
    .ok { s with rows := s.rows.map fun r =>
            if rowMatches record.bucket record.key r then record else r }
  else .ok { s with rows := s.rows ++ [record] }

/-- SQLiteStore.listTasksByStatus: queries the database directly — there is
no closed-flag check; a closed sql.DB handle fails the query with
"sql: database is closed". -/
def listTasksByStatus (s : StoreState) (status : TaskStatus) :
    Except String (List TaskRecord) :=
  if !s.dbOpen then .error "sql: database is closed"
  else .ok (s.rows.filter fun r => r.status == status)

/-- SQLiteStore.ListPendingTasks. -/
def ListPendingTasks (s : StoreState) : Except String (List TaskRecord) :=
  listTasksByStatus s .pending

/-- SQLiteStore.ListFailedTasks. -/
def ListFailedTasks (s : StoreState) : Except String (List TaskRecord) :=
  listTasksByStatus s .failed

/-- SQLiteStore.Close: sets the closed flag and closes the sql.DB handle. -/
def Close (s : StoreState) : StoreState :=
  { s with closed := true, dbOpen := false }

end checkpoint

namespace config

/-- From internal/config/config.go: S3-compatible endpoint configuration. -/
structure S3Config where
  endpoint : String
  accessKey : String
  secretKey : String
  secure : Bool
deriving DecidableEq

/-- From internal/config/config.go: migration settings.  The string fields
Prefix/Object only select what is listed and are not validated; they are
omitted here (no claim concerns them). -/
structure Migration where
  bucket : String
  concurrency : Int
  multipartThreshold : Int
  partSize : Int
  retries : Int
  retryBackoffMs : Int
  dryRun : Bool
  checkpointPath : String
  skipExisting : Bool
  resume : Bool
  showProgress : Bool
deriving DecidableEq

/-- From internal/config/config.go: the application configuration. -/
structure AppConfig where
  source : S3Config
  target : S3Config
  migration : Migration
  logLevel : String
deriving DecidableEq

/-- Config.validate, clause for clause: endpoints, keys, bucket,
concurrency > 0, part size at least 5 MiB.  `Retries` is never examined. -/
def validate (c : AppConfig) : Option String :=
  if c.source.endpoint = "" then some "source endpoint is required"
  else if c.source.accessKey = "" then some "source access key is required"
  else if c.source.secretKey = "" then some "source secret key is required"
  else if c.target.endpoint = "" then some "target endpoint is required"
  else if c.target.accessKey = "" then some "target access key is required"
  else if c.target.secretKey = "" then some "target secret key is required"
  else if c.migration.bucket = "" then some "bucket is required"
  else if c.migration.concurrency ≤ 0 then some "concurrency must be positive"
  else if c.migration.partSize < 5 * 1024 * 1024 then
    some "part size must be at least 5MB"
  else none

end config

namespace app

/-- Outcomes of the fallible stages of a whole run, plus how many tasks are
left failed when the workers finish.  CountObjects failures only log a
warning and are omitted (they never change control flow). -/
structure RunEnv where
  configResult : Except String Unit
  loggerResult : Except String Unit
  newResult : Except String Unit
  listResult : Except String Unit
  failedTasks : Nat

/-- Migrator.Run: the only error path is ListAndEnqueue; after the workers
drain, Run returns nil unconditionally — the count of failed tasks is never
consulted. -/
def migratorRun (env : RunEnv) : Except String Unit :=
  match env.listResult with
  | .error e => .error ("failed to list objects: " ++ e)
  | .ok _ => .ok ()

/-- cmd/main.go runMigration: config load, logger init, app.New, then
Migrator.Run, propagating the first error. -/
def runMigration (env : RunEnv) : Except String Unit :=
  match env.configResult with
  | .error e => .error ("failed to load config: " ++ e)
  | .ok _ =>
    match env.loggerResult with
    | .error e => .error ("failed to initialize logger: " ++ e)
    | .ok _ =>
      match env.newResult with
      | .error e => .error ("failed to create migrator: " ++ e)
      | .ok _ => migratorRun env

/-- cmd/main.go main: exit 1 when rootCmd.Execute (runMigration) returns an
error, exit 0 otherwise. -/
def mainExitCode (env : RunEnv) : Nat :=
  match runMigration env with
  | .error _ => 1
  | .ok _ => 0

end app

/-! ### Concrete instances used by witnesses and counterexamples -/

/-- The S1 task of the spec: object b/k, size 1024, etag "abc". -/
def taskS1 : worker.Task :=
  { bucket := "b", key := "k", size := 1024, etag := "abc",
    contentType := "", metadata := [] }

/-- Default worker configuration (100 MiB threshold, 64 MiB parts,
5 retries, skip_existing on). -/
def cfgDefault : worker.Config :=
  { multipartThreshold := 104857600, partSize := 67108864,
    retries := 5, retryBackoffMs := 500, skipExisting := true }

/-- Configuration with Retries = 0 and skip_existing off. -/
def cfgZeroRetries : worker.Config :=
  { cfgDefault with retries := 0, skipExisting := false }

/-- Configuration with Retries = 2. -/
def cfgTwoRetries : worker.Config :=
  { cfgDefault with retries := 2, skipExisting := false }

/-- Process environment: no checkpoint record, destination object absent,
every transfer attempt succeeds. -/
def envFirstOk : worker.ProcEnv :=
  { getTaskResult := .ok none, headResult := .error "NoSuchKey: not found",
    attemptResult := fun _ => none }

/-- Process environment: every transfer attempt fails with a retriable
connection error. -/
def envConnReset : worker.ProcEnv :=
  { envFirstOk with attemptResult := fun _ => some "connection reset" }

/-- A completed checkpoint record whose size and etag DIFFER from taskS1. -/
def rStale : checkpoint.TaskRecord :=
  { bucket := "b", key := "k", size := 999, etag := "zzz",
    status := .completed, attempts := 0, lastError := "" }

/-- Process environment whose checkpoint lookup returns the stale completed
record. -/
def envStaleCompleted : worker.ProcEnv :=
  { envFirstOk with getTaskResult := .ok (some rStale) }

/-- Destination HeadObject response matching taskS1 by size and etag. -/
def infoMatch : storage.ObjectInfo :=
  { key := "k", size := 1024, etag := "abc", contentType := "" }

/-- Process environment: no checkpoint record, destination object present
and matching taskS1. -/
def envHeadMatch : worker.ProcEnv :=
  { getTaskResult := .ok none, headResult := .ok infoMatch,
    attemptResult := fun _ => some "transfer should not run" }

/-- Run environment where every stage succeeds but one task failed. -/
def envRunOk : app.RunEnv :=
  { configResult := .ok (), loggerResult := .ok (), newResult := .ok (),
    listResult := .ok (), failedTasks := 1 }

/-- An open checkpoint store with no rows. -/
def storeOpen : checkpoint.StoreState :=
  { closed := false, dbOpen := true, rows := [] }

/-- A zeroed progress status. -/
def statusZero : progress.Status :=
  { totalObjects := 0, processedObjects := 0, successObjects := 0,
    failedObjects := 0, skippedObjects := 0, totalBytes := 0,
    processedBytes := 0 }

/-! ### C7: tracker counter conservation -/

/-- C7: the progress tracker preserves processed = success + failed + skipped
across AddSuccess, AddFailed and AddSkipped; AddSuccess and AddSkipped add
the given bytes to processedBytes, AddFailed leaves processedBytes
unchanged. -/
theorem tracker_conservation (t : progress.Status) (b c : Int)
    (h : progress.counterInvariant t) :
    progress.counterInvariant (progress.AddSuccess t b) ∧
    progress.counterInvariant (progress.AddFailed t) ∧
    progress.counterInvariant (progress.AddSkipped t c) ∧
    (progress.AddSuccess t b).processedBytes = t.processedBytes + b ∧
    (progress.AddFailed t).processedBytes = t.processedBytes ∧
    (progress.AddSkipped t c).processedBytes = t.processedBytes + c := by
  unfold progress.counterInvariant at h
  refine ⟨?_, ?_, ?_, rfl, rfl, rfl⟩ <;>
    simp only [progress.counterInvariant, progress.AddSuccess,
      progress.AddFailed, progress.AddSkipped] <;> omega

/-- C7 witness: the conservation law applied at the zero status. -/
theorem tracker_conservation_witness :
    progress.counterInvariant statusZero ∧
    (progress.counterInvariant (progress.AddSuccess statusZero 7) ∧
     progress.counterInvariant (progress.AddFailed statusZero) ∧
     progress.counterInvariant (progress.AddSkipped statusZero 9) ∧
     (progress.AddSuccess statusZero 7).processedBytes = statusZero.processedBytes + 7 ∧
     (progress.AddFailed statusZero).processedBytes = statusZero.processedBytes ∧
     (progress.AddSkipped statusZero 9).processedBytes = statusZero.processedBytes + 9) :=
  ⟨rfl, tracker_conservation statusZero 7 9 rfl⟩

/-! ### C8: operations after Close fail -/

/-- C8: after Close, GetTask and SaveTask fail on the store's closed flag
("database store is closed") and the list operations fail on the closed
sql.DB handle ("sql: database is closed"); none succeeds or returns data. -/
theorem store_closed_rejects_operations (s : checkpoint.StoreState)
    (b k : String) (r : checkpoint.TaskRecord) :
    checkpoint.GetTask (checkpoint.Close s) b k =
      .error "database store is closed" ∧
    checkpoint.SaveTask (checkpoint.Close s) r =
      .error "database store is closed" ∧
    checkpoint.ListPendingTasks (checkpoint.Close s) =
      .error "sql: database is closed" ∧
    checkpoint.ListFailedTasks (checkpoint.Close s) =
      .error "sql: database is closed" :=
  ⟨rfl, rfl, rfl, rfl⟩

/-- C8 witness: the operations on a concrete closed store. -/
theorem store_closed_rejects_operations_witness :
    checkpoint.GetTask (checkpoint.Close storeOpen) "b" "k" =
      .error "database store is closed" ∧
    checkpoint.SaveTask (checkpoint.Close storeOpen) rStale =
      .error "database store is closed" ∧
    checkpoint.ListPendingTasks (checkpoint.Close storeOpen) =
      .error "sql: database is closed" ∧
    checkpoint.ListFailedTasks (checkpoint.Close storeOpen) =
      .error "sql: database is closed" :=
  store_closed_rejects_operations storeOpen "b" "k" rStale

/-! ### C9: completed checkpoint record skips without size/etag comparison -/

/-- C9: with SkipExisting set, a checkpoint record in status completed makes
Process emit skipped counting task.size bytes and perform no transfer, for
EVERY record — its size and etag are never compared to the task's. -/
theorem completed_record_skips_unconditionally (cfg : worker.Config)
    (env : worker.ProcEnv) (task : worker.Task) (r : checkpoint.TaskRecord)
    (hs : cfg.skipExisting = true)
    (hg : env.getTaskResult = .ok (some r))
    (hr : r.status = .completed) :
    worker.Process cfg env task =
      (.skippedCompleted, [.incSkippedWithBytes task.size]) := by
  have hc : worker.skipCompletedCheck cfg env = true := by
    unfold worker.skipCompletedCheck
    rw [hg]
    simp [hr, hs]
  unfold worker.Process
  rw [hc]
  simp

/-- C9 witness: the stale completed record rStale differs from taskS1 in
both size and etag, yet Process skips. -/
theorem completed_record_skips_unconditionally_witness :
    rStale.size ≠ taskS1.size ∧ rStale.etag ≠ taskS1.etag ∧
    worker.Process cfgDefault envStaleCompleted taskS1 =
      (.skippedCompleted, [.incSkippedWithBytes taskS1.size]) :=
  ⟨by decide, by decide,
   completed_record_skips_unconditionally cfgDefault envStaleCompleted taskS1
     rStale rfl rfl rfl⟩

/-! ### C10: Retries ≤ 0 panics and is not rejected by validation -/

/-- C10: when the configured Retries is zero or negative and neither skip
branch fires, the retry loop body never runs, lastErr stays nil and
markFailed panics dereferencing it (no events are emitted); and
Config.validate never examines the Retries field, so no configuration is
rejected for Retries ≤ 0. -/
theorem zero_retries_panics (cfg : worker.Config) (env : worker.ProcEnv)
    (task : worker.Task)
    (hr : cfg.retries ≤ 0)
    (h1 : worker.skipCompletedCheck cfg env = false)
    (h2 : (cfg.skipExisting && worker.objectExistsAndMatches env task) = false) :
    worker.Process cfg env task = (.panicked 0, []) ∧
    ∀ (c : config.AppConfig) (r : Int),
      config.validate { c with migration := { c.migration with retries := r } } =
        config.validate c := by
  constructor
  · unfold worker.Process
    rw [h1, h2]
    have hf : cfg.retries.toNat = 0 := Int.toNat_of_nonpos hr
    simp only [Bool.false_eq_true, if_false, hf]
    rfl
  · intro c r
    rfl

/-- C10 witness: Retries = 0 with no applicable skip branch panics with an
empty trace. -/
theorem zero_retries_panics_witness :
    (cfgZeroRetries.retries ≤ 0 ∧
     worker.skipCompletedCheck cfgZeroRetries envFirstOk = false) ∧
    worker.Process cfgZeroRetries envFirstOk taskS1 = (.panicked 0, []) ∧
    ∀ (c : config.AppConfig) (r : Int),
      config.validate { c with migration := { c.migration with retries := r } } =
        config.validate c :=
  ⟨⟨by decide, rfl⟩,
   zero_retries_panics cfgZeroRetries envFirstOk taskS1 (by decide) rfl rfl⟩

/-! ### C6: exit codes -/

/-- C6 counterexample: a run in which every stage succeeds but one task
remains failed still exits with code 0, contradicting the claim that any
remaining failed task forces exit code 1. -/
theorem exit_zero_despite_failed_task :
    app.mainExitCode envRunOk = 0 ∧ envRunOk.failedTasks = 1 :=
  ⟨rfl, rfl⟩

/-- C6 amended: the exit code is 0 exactly when configuration loading,
logger initialization, migrator construction and object listing all succeed;
any of those failing exits 1; the number of failed tasks never influences
the exit code. -/
theorem exit_code_ignores_failed_tasks (env : app.RunEnv) :
    (app.mainExitCode env = 0 ↔
      (env.configResult = .ok () ∧ env.loggerResult = .ok () ∧
       env.newResult = .ok () ∧ env.listResult = .ok ())) ∧
    (∀ n, app.mainExitCode { env with failedTasks := n } =
      app.mainExitCode env) ∧
    (app.mainExitCode env = 0 ∨ app.mainExitCode env = 1) := by
  obtain ⟨c, l, m, s, f⟩ := env
  refine ⟨?_, fun n => rfl, ?_⟩ <;>
    cases c <;> cases l <;> cases m <;> cases s <;>
    simp [app.mainExitCode, app.runMigration, app.migratorRun]

/-- C6 witness: the amended law at the all-success environment with one
failed task. -/
theorem exit_code_ignores_failed_tasks_witness :
    (app.mainExitCode envRunOk = 0 ↔
      (envRunOk.configResult = .ok () ∧ envRunOk.loggerResult = .ok () ∧
       envRunOk.newResult = .ok () ∧ envRunOk.listResult = .ok ())) ∧
    (∀ n, app.mainExitCode { envRunOk with failedTasks := n } =
      app.mainExitCode envRunOk) ∧
    (app.mainExitCode envRunOk = 0 ∨ app.mainExitCode envRunOk = 1) :=
  exit_code_ignores_failed_tasks envRunOk

/-! ### C4: skip by destination match -/

/-- C4: with SkipExisting set and no completed checkpoint record, a
destination HeadObject success whose size and etag equal the task's makes
Process mark the task completed in the checkpoint and emit skipped with
bytes = task.size — no transfer attempt (hence no PUT or multipart call)
happens, and on the tracker the trace adds one skip (success unchanged). -/
theorem skip_on_destination_match (cfg : worker.Config) (env : worker.ProcEnv)
    (task : worker.Task) (info : storage.ObjectInfo)
    (hs : cfg.skipExisting = true)
    (hnc : ∀ r, env.getTaskResult = .ok (some r) → r.status ≠ .completed)
    (hh : env.headResult = .ok info)
    (hsize : info.size = task.size)
    (hetag : info.etag = task.etag) :
    worker.Process cfg env task =
      (.skippedExisting,
       [.saveTask (worker.completedRecord task),
        .incSkippedWithBytes task.size]) ∧
    (worker.completedRecord task).status = .completed ∧
    ∀ t : progress.Status,
      metrics.applyEvents (worker.Process cfg env task).2 t =
        progress.AddSkipped t (task.size : Int) ∧
      (progress.AddSkipped t (task.size : Int)).successObjects =
        t.successObjects ∧
      (progress.AddSkipped t (task.size : Int)).skippedObjects =
        t.skippedObjects + 1 ∧
      (progress.AddSkipped t (task.size : Int)).processedBytes =
        t.processedBytes + (task.size : Int) := by
  have h1 : worker.skipCompletedCheck cfg env = false := by
    unfold worker.skipCompletedCheck
    cases hg : env.getTaskResult with
    | error e => rfl
    | ok o =>
      cases o with
      | none => rfl
      | some r =>
        have hne := hnc r hg
        simp [hne]
  have h2 : worker.objectExistsAndMatches env task = true := by
    unfold worker.objectExistsAndMatches
    rw [hh]
    simp [hsize, hetag]
  have hp : worker.Process cfg env task =
      (.skippedExisting,
       [.saveTask (worker.completedRecord task),
        .incSkippedWithBytes task.size]) := by
    unfold worker.Process
    rw [h1, h2, hs]
    simp
  refine ⟨hp, rfl, fun t => ⟨?_, rfl, rfl, rfl⟩⟩
  rw [hp]
  rfl

/-- C4 witness: the S3 scenario — destination matches taskS1, so Process
marks completed and skips without any transfer attempt. -/
theorem skip_on_destination_match_witness :
    infoMatch.size = taskS1.size ∧ infoMatch.etag = taskS1.etag ∧
    (worker.Process cfgDefault envHeadMatch taskS1 =
      (.skippedExisting,
       [.saveTask (worker.completedRecord taskS1),
        .incSkippedWithBytes taskS1.size]) ∧
     (worker.completedRecord taskS1).status = .completed ∧
     ∀ t : progress.Status,
       metrics.applyEvents (worker.Process cfgDefault envHeadMatch taskS1).2 t =
         progress.AddSkipped t (taskS1.size : Int) ∧
       (progress.AddSkipped t (taskS1.size : Int)).successObjects =
         t.successObjects ∧
       (progress.AddSkipped t (taskS1.size : Int)).skippedObjects =
         t.skippedObjects + 1 ∧
       (progress.AddSkipped t (taskS1.size : Int)).processedBytes =
         t.processedBytes + (taskS1.size : Int)) :=
  ⟨rfl, rfl,
   skip_on_destination_match cfgDefault envHeadMatch taskS1 infoMatch rfl
     (by intro r h; simp [envHeadMatch] at h) rfl rfl rfl⟩

/-! ### C5: the record written at finalize-success -/

/-- Every successful exit of the retry loop saves exactly the
markCompleted record (whose Attempts field is the Go zero value). -/
theorem retryLoop_succeeded_saved (env : worker.ProcEnv) (task : worker.Task)
    (retries : Int) :
    ∀ (fuel : Nat) (attempt : Int) (lastErr : Option String) (a : Int),
      (worker.retryLoopAux env task retries attempt fuel lastErr).1 =
        .succeeded a →
      worker.savedRecords
        (worker.retryLoopAux env task retries attempt fuel lastErr).2 =
        [worker.completedRecord task] := by
  intro fuel
  induction fuel with
  | zero =>
    intro attempt lastErr a h
    cases lastErr <;>
      simp [worker.retryLoopAux, worker.finishFailure] at h
  | succ fuel ih =>
    intro attempt lastErr a h
    rw [worker.retryLoopAux] at h ⊢
    cases hres : env.attemptResult attempt with
    | none =>
      simp [worker.savedRecords]
    | some e =>
      rw [hres] at h
      dsimp only at h ⊢
      by_cases hret : worker.isRetriableError e = true
      · rw [if_pos hret] at h ⊢
        dsimp only at h ⊢
        have hrec := ih (attempt + 1) (some e) a h
        unfold worker.savedRecords at hrec ⊢
        simp only [List.filterMap_cons, List.filterMap_append]
        split <;> simpa using hrec
      · rw [if_neg hret] at h
        dsimp only at h
        simp at h

/-- C5 counterexample: taskS1 transferred successfully on the first attempt
stores a completed checkpoint row whose attempts field is 0, not the 1 the
claim requires. -/
theorem s1_attempts_not_recorded :
    (worker.Process cfgDefault envFirstOk taskS1).1 = .succeeded 1 ∧
    worker.savedRecords (worker.Process cfgDefault envFirstOk taskS1).2 =
      [{ bucket := "b", key := "k", size := 1024, etag := "abc",
         status := checkpoint.TaskStatus.completed, attempts := 0,
         lastError := "" }] :=
  ⟨rfl, rfl⟩

/-- C5 amended: for every task whose transfer eventually succeeds, the
record upserted at finalize-success has the task's bucket/key/size/etag and
status completed, but its attempts field is always 0 — the attempts actually
used are not recorded. -/
theorem finalize_success_record (cfg : worker.Config) (env : worker.ProcEnv)
    (task : worker.Task) (a : Int)
    (h : (worker.Process cfg env task).1 = .succeeded a) :
    worker.savedRecords (worker.Process cfg env task).2 =
      [worker.completedRecord task] ∧
    (worker.completedRecord task).status = .completed ∧
    (worker.completedRecord task).attempts = 0 ∧
    (worker.completedRecord task).size = task.size ∧
    (worker.completedRecord task).etag = task.etag := by
  refine ⟨?_, rfl, rfl, rfl, rfl⟩
  unfold worker.Process at h ⊢
  split at h
  next hc =>
    simp at h
  next hc =>
    rw [if_neg hc]
    split at h
    next hc2 =>
      simp at h
    next hc2 =>
      rw [if_neg hc2]
      exact retryLoop_succeeded_saved env task cfg.retries _ _ _ a h

/-- C5 amended witness: the S1 single small object on the first attempt. -/
theorem finalize_success_record_witness :
    (worker.Process cfgDefault envFirstOk taskS1).1 = .succeeded 1 ∧
    (worker.savedRecords (worker.Process cfgDefault envFirstOk taskS1).2 =
      [worker.completedRecord taskS1] ∧
     (worker.completedRecord taskS1).status = .completed ∧
     (worker.completedRecord taskS1).attempts = 0 ∧
     (worker.completedRecord taskS1).size = taskS1.size ∧
     (worker.completedRecord taskS1).etag = taskS1.etag) :=
  ⟨rfl, finalize_success_record cfgDefault envFirstOk taskS1 1 rfl⟩

/-! ### C3: retry law -/

/-- Exit analysis of the retry loop on the failed path: relative to the
starting attempt number, the attempts recorded in the trace, and that either
the attempt budget was exhausted (final attempt number = retries) or the
last attempt tried hit a non-retriable error. -/
theorem retryLoop_failed_law (env : worker.ProcEnv) (task : worker.Task)
    (retries : Int) :
    ∀ (fuel : Nat) (attempt : Int) (lastErr : Option String) (a : Int)
      (e : String),
      attempt + fuel = retries + 1 →
      (worker.retryLoopAux env task retries attempt fuel lastErr).1 =
        .failed a e →
      attempt - 1 ≤ a ∧
      worker.countAttempts
        (worker.retryLoopAux env task retries attempt fuel lastErr).2 =
        (a - attempt + 1).toNat ∧
      (a = retries ∨
        (a < retries ∧ env.attemptResult a = some e ∧
         worker.isRetriableError e = false)) := by
  intro fuel
  induction fuel with
  | zero =>
    intro attempt lastErr a e hfuel h
    cases lastErr with
    | none => simp [worker.retryLoopAux, worker.finishFailure] at h
    | some msg =>
      rw [worker.retryLoopAux] at h ⊢
      dsimp [worker.finishFailure] at h ⊢
      obtain ⟨ha, he⟩ := h
      refine ⟨by omega, ?_, by left; omega⟩
      unfold worker.countAttempts
      simp [worker.isAttemptEvent]
      try omega
  | succ fuel ih =>
    intro attempt lastErr a e hfuel h
    rw [worker.retryLoopAux] at h ⊢
    cases hres : env.attemptResult attempt with
    | none =>
      rw [hres] at h
      dsimp only at h
      simp at h
    | some msg =>
      rw [hres] at h
      dsimp only at h ⊢
      by_cases hret : worker.isRetriableError msg = true
      · rw [if_pos hret] at h ⊢
        dsimp only at h ⊢
        have hrec := ih (attempt + 1) (some msg) a e (by omega) h
        obtain ⟨h1, h2, h3⟩ := hrec
        refine ⟨by omega, ?_, h3⟩
        unfold worker.countAttempts at h2 ⊢
        simp only [List.countP_cons, List.countP_append]
        split <;> simp [worker.isAttemptEvent] <;> omega
      · rw [if_neg hret] at h ⊢
        dsimp only at h ⊢
        obtain ⟨ha, he⟩ := worker.ProcResult.failed.inj h
        subst ha he
        have hb : worker.isRetriableError msg = false := by
          simpa using hret
        refine ⟨by omega, ?_, ?_⟩
        · unfold worker.countAttempts
          simp [worker.isAttemptEvent]
          try omega
        · by_cases hr : attempt = retries
          · exact Or.inl hr
          · exact Or.inr ⟨by omega, hres, hb⟩

/-- C3: a task that ends marked failed was either attempted exactly
Retries times, or the last attempt tried hit a non-retriable error (one
matching none of the network-class patterns or 5xx phrases) and no further
attempt was made; the trace records exactly that many transfer attempts. -/
theorem retry_law_on_failure (cfg : worker.Config) (env : worker.ProcEnv)
    (task : worker.Task) (a : Int) (e : String)
    (h : (worker.Process cfg env task).1 = .failed a e) :
    worker.countAttempts (worker.Process cfg env task).2 = a.toNat ∧
    (a = cfg.retries ∨
      (a < cfg.retries ∧ env.attemptResult a = some e ∧
       worker.isRetriableError e = false)) := by
  unfold worker.Process at h ⊢
  split at h
  next hc => simp at h
  next hc =>
    rw [if_neg hc]
    split at h
    next hc2 => simp at h
    next hc2 =>
      rw [if_neg hc2]
      by_cases hr : cfg.retries ≤ 0
      · rw [Int.toNat_of_nonpos hr] at h
        simp [worker.retryLoopAux, worker.finishFailure] at h
      · push_neg at hr
        have hfuel : (1 : Int) + (cfg.retries.toNat : Int) = cfg.retries + 1 := by
          omega
        obtain ⟨h1, h2, h3⟩ :=
          retryLoop_failed_law env task cfg.retries cfg.retries.toNat 1 none
            a e hfuel h
        have hsub : a - 1 + 1 = a := by omega
        rw [hsub] at h2
        exact ⟨h2, h3⟩

/-- C3 witness: with Retries = 2 and every attempt failing with the
retriable "connection reset", the task fails after exactly 2 attempts. -/
theorem retry_law_on_failure_witness :
    (worker.Process cfgTwoRetries envConnReset taskS1).1 =
      .failed 2 "connection reset" ∧
    (worker.countAttempts (worker.Process cfgTwoRetries envConnReset taskS1).2 =
      (2 : Int).toNat ∧
     (2 = cfgTwoRetries.retries ∨
       ((2 : Int) < cfgTwoRetries.retries ∧
        envConnReset.attemptResult 2 = some "connection reset" ∧
        worker.isRetriableError "connection reset" = false))) :=
  ⟨rfl,
   retry_law_on_failure cfgTwoRetries envConnReset taskS1 2 "connection reset"
     rfl⟩

/-! ### C2: multipart abort on part failure -/

/-- The part-upload loop never issues a CompleteMultipartUpload call. -/
theorem uploadPartsLoop_no_complete (env : worker.MpEnv) (b k uid : String)
    (partSize size : Nat) :
    ∀ (fuel partNum remaining : Nat) (acc : List storage.CompletedPart)
      (c : storage.DstCall),
      c ∈ (worker.uploadPartsLoop env b k uid partSize size partNum fuel
            remaining acc).1 →
      storage.isCompleteCall c = false := by
  intro fuel
  induction fuel with
  | zero =>
    intro partNum remaining acc c hc
    simp [worker.uploadPartsLoop] at hc
  | succ fuel ih =>
    intro partNum remaining acc c hc
    rw [worker.uploadPartsLoop] at hc
    cases hre : env.readErrAt partNum with
    | some e =>
      rw [hre] at hc
      dsimp only at hc
      simp at hc
      subst hc
      rfl
    | none =>
      rw [hre] at hc
      dsimp only at hc
      split at hc
      · simp at hc
        subst hc
        rfl
      · cases hup : env.uploadPartResult partNum with
        | error e =>
          rw [hup] at hc
          dsimp only at hc
          simp only [List.mem_cons, List.not_mem_nil, or_false] at hc
          rcases hc with hc | hc
          · subst hc
            rfl
          · subst hc
            rfl
        | ok etag =>
          rw [hup] at hc
          dsimp only at hc
          rcases List.mem_cons.mp hc with hc | hc
          · subst hc
            rfl
          · exact ih (partNum + 1) (remaining - min (worker.goPartSize partSize size partNum) remaining)
              (acc ++ [⟨partNum, etag⟩]) c hc

/-- When the part-upload loop fails, its trace contains the
AbortMultipartUpload call for the active upload id. -/
theorem uploadPartsLoop_error_abort (env : worker.MpEnv) (b k uid : String)
    (partSize size : Nat) :
    ∀ (fuel partNum remaining : Nat) (acc : List storage.CompletedPart)
      (e : String),
      (worker.uploadPartsLoop env b k uid partSize size partNum fuel
        remaining acc).2 = .error e →
      storage.DstCall.abortMultipart b k uid ∈
        (worker.uploadPartsLoop env b k uid partSize size partNum fuel
          remaining acc).1 := by
  intro fuel
  induction fuel with
  | zero =>
    intro partNum remaining acc e hf
    simp [worker.uploadPartsLoop] at hf
  | succ fuel ih =>
    intro partNum remaining acc e hf
    rw [worker.uploadPartsLoop] at hf ⊢
    cases hre : env.readErrAt partNum with
    | some er =>
      simp
    | none =>
      rw [hre] at hf
      dsimp only at hf ⊢
      split at hf
      · next hcond =>
          rw [if_pos hcond]
          simp
      · next hcond =>
          rw [if_neg hcond]
          cases hup : env.uploadPartResult partNum with
          | error er =>
            simp
          | ok etag =>
            rw [hup] at hf
            dsimp only at hf ⊢
            exact List.mem_cons_of_mem _
              (ih (partNum + 1)
                (remaining - min (worker.goPartSize partSize size partNum) remaining)
                (acc ++ [⟨partNum, etag⟩]) e hf)

/-- C2: whenever reading or uploading any part fails (the loop result is an
error), uploadMultipart's trace contains AbortMultipartUpload for the active
upload id, contains no CompleteMultipartUpload call, and the error is
propagated. -/
theorem multipart_abort_on_part_failure (env : worker.MpEnv)
    (b k : String) (partSize size streamLen : Nat) (uid e : String)
    (hnew : env.newMultipartResult = .ok uid)
    (hfail : (worker.uploadPartsLoop env b k uid partSize size 1
      (worker.partCountOf size partSize) streamLen []).2 = .error e) :
    (worker.uploadMultipart env b k partSize size streamLen).2 = .error e ∧
    storage.DstCall.abortMultipart b k uid ∈
      (worker.uploadMultipart env b k partSize size streamLen).1 ∧
    ∀ c ∈ (worker.uploadMultipart env b k partSize size streamLen).1,
      storage.isCompleteCall c = false := by
  unfold worker.uploadMultipart
  rw [hnew]
  dsimp only
  rw [hfail]
  dsimp only
  refine ⟨rfl, ?_, ?_⟩
  · exact List.mem_cons_of_mem _
      (uploadPartsLoop_error_abort env b k uid partSize size
        (worker.partCountOf size partSize) 1 streamLen [] e hfail)
  · intro c hc
    rcases List.mem_cons.mp hc with hc | hc
    · subst hc
      rfl
    · exact uploadPartsLoop_no_complete env b k uid partSize size
        (worker.partCountOf size partSize) 1 streamLen [] c hc

/-- Multipart environment that delivers a 10-byte stream in 4-byte parts and
fails on part 2. -/
def envPartFail : worker.MpEnv :=
  { getObjectResult := .ok 10, putResult := .ok (),
    newMultipartResult := .ok "uid",
    readErrAt := fun _ => none,
    uploadPartResult := fun n => if n == 2 then .error "boom" else .ok "pet",
    completeResult := fun _ => .ok () }

/-- C2 witness: part 2 of 3 fails, so the upload aborts, never completes,
and propagates the wrapped error. -/
theorem multipart_abort_on_part_failure_witness :
    (worker.uploadPartsLoop envPartFail "b" "k" "uid" 4 10 1
      (worker.partCountOf 10 4) 10 []).2 =
      .error "failed to upload part: boom" ∧
    ((worker.uploadMultipart envPartFail "b" "k" 4 10 10).2 =
      .error "failed to upload part: boom" ∧
     storage.DstCall.abortMultipart "b" "k" "uid" ∈
       (worker.uploadMultipart envPartFail "b" "k" 4 10 10).1 ∧
     ∀ c ∈ (worker.uploadMultipart envPartFail "b" "k" 4 10 10).1,
       storage.isCompleteCall c = false) :=
  ⟨rfl,
   multipart_abort_on_part_failure envPartFail "b" "k" 4 10 10 "uid"
     "failed to upload part: boom" rfl rfl⟩

/-! ### C1: the multipart upload plan -/

/-- On the all-success path, the part loop started at part `partNum` with
the stream holding exactly the not-yet-read bytes uploads the parts
`partNum, partNum+1, ...` in ascending order, each of the clamped size
`min partSize (size - (j-1)*partSize)`, and returns them appended to the
accumulator in that order. -/
theorem uploadPartsLoop_ok_plan (env : worker.MpEnv) (b k uid : String)
    (partSize size : Nat) (et : Nat → String)
    (hread : ∀ n, env.readErrAt n = none)
    (hup : ∀ n, env.uploadPartResult n = .ok (et n)) :
    ∀ (fuel partNum : Nat) (acc : List storage.CompletedPart),
      1 ≤ partNum →
      worker.uploadPartsLoop env b k uid partSize size partNum fuel
        (size - (partNum - 1) * partSize) acc =
      ((List.range' partNum fuel).map fun j =>
         storage.DstCall.uploadPart b k uid j
           (min partSize (size - (j - 1) * partSize)),
       .ok (acc ++ (List.range' partNum fuel).map fun j =>
         (⟨j, et j⟩ : storage.CompletedPart))) := by
  intro fuel
  induction fuel with
  | zero =>
    intro partNum acc hp
    simp [worker.uploadPartsLoop]
  | succ fuel ih =>
    intro partNum acc hp
    obtain ⟨q, rfl⟩ : ∃ q, partNum = q + 1 := ⟨partNum - 1, by omega⟩
    rw [worker.uploadPartsLoop, hread (q + 1)]
    dsimp only
    simp only [Nat.add_sub_cancel]
    have hps : worker.goPartSize partSize size (q + 1) =
        min partSize (size - q * partSize) := by
      unfold worker.goPartSize
      simp only [Nat.add_sub_cancel]
      generalize q * partSize = X
      split <;> omega
    rw [hps]
    have hmin : min (min partSize (size - q * partSize))
        (size - q * partSize) = min partSize (size - q * partSize) := by
      generalize size - q * partSize = R
      omega
    rw [hmin]
    have hguard : ¬(min partSize (size - q * partSize) = 0 ∧
        min partSize (size - q * partSize) ≠ 0) := by tauto
    rw [if_neg hguard, hup (q + 1)]
    dsimp only
    have harg : size - q * partSize - min partSize (size - q * partSize) =
        size - (q + 1) * partSize := by
      rw [Nat.succ_mul]
      generalize q * partSize = X
      omega
    rw [harg]
    have hI := ih (q + 1 + 1) (acc ++ [⟨q + 1, et (q + 1)⟩]) (by omega)
    simp only [Nat.add_sub_cancel] at hI
    rw [hI]
    rw [List.range'_succ]
    simp [Nat.add_sub_cancel, List.append_assoc]

/-- C1: for a task at or above the multipart threshold whose source stream
delivers exactly task.size bytes, with every client call succeeding, the
transfer initiates one multipart upload, uploads exactly
partCount = ceil(size/partSize) parts in ascending part number 1..partCount
(part j of size min(partSize, size - (j-1)*partSize)), and completes once
with the part list ordered ascending by part number. -/
theorem multipart_uploads_all_parts (cfg : worker.Config) (env : worker.MpEnv)
    (task : worker.Task) (uid : String) (et : Nat → String)
    (hth : cfg.multipartThreshold ≤ task.size)
    (hget : env.getObjectResult = .ok task.size)
    (hnew : env.newMultipartResult = .ok uid)
    (hread : ∀ n, env.readErrAt n = none)
    (hup : ∀ n, env.uploadPartResult n = .ok (et n))
    (hcomp : ∀ ps, env.completeResult ps = .ok ()) :
    worker.processTaskTransfer cfg env task =
      (storage.DstCall.newMultipart task.bucket task.key ::
        ((List.range' 1 (worker.partCountOf task.size cfg.partSize)).map
          fun j => storage.DstCall.uploadPart task.bucket task.key uid j
            (min cfg.partSize (task.size - (j - 1) * cfg.partSize))) ++
        [storage.DstCall.completeMultipart task.bucket task.key uid
          ((List.range' 1 (worker.partCountOf task.size cfg.partSize)).map
            fun j => (⟨j, et j⟩ : storage.CompletedPart))],
       .ok ()) := by
  unfold worker.processTaskTransfer
  rw [hget]
  dsimp only
  rw [if_neg (by omega)]
  unfold worker.uploadMultipart
  rw [hnew]
  dsimp only
  have hloop := uploadPartsLoop_ok_plan env task.bucket task.key uid
    cfg.partSize task.size et hread hup
    (worker.partCountOf task.size cfg.partSize) 1 [] (le_refl 1)
  simp only [Nat.sub_self, Nat.zero_mul, Nat.sub_zero] at hloop
  rw [hloop]
  dsimp only
  rw [hcomp]
  simp

/-- Multipart environment for the S2 scenario: 200000000-byte stream,
all calls succeed. -/
def envS2 : worker.MpEnv :=
  { getObjectResult := .ok 200000000, putResult := .ok (),
    newMultipartResult := .ok "uid",
    readErrAt := fun _ => none,
    uploadPartResult := fun _ => .ok "pet",
    completeResult := fun _ => .ok () }

/-- The S2 task: 200000000 bytes. -/
def taskS2 : worker.Task :=
  { bucket := "b", key := "k", size := 200000000, etag := "e2",
    contentType := "", metadata := [] }

/-- C1 witness: size 200000000 with part size 67108864 and threshold
104857600 uploads exactly 3 parts of sizes 67108864, 67108864, 65782272 and
completes once with parts [1,2,3]. -/
theorem multipart_uploads_all_parts_witness :
    cfgDefault.multipartThreshold ≤ taskS2.size ∧
    worker.processTaskTransfer cfgDefault envS2 taskS2 =
      (storage.DstCall.newMultipart "b" "k" ::
        [storage.DstCall.uploadPart "b" "k" "uid" 1 67108864,
         storage.DstCall.uploadPart "b" "k" "uid" 2 67108864,
         storage.DstCall.uploadPart "b" "k" "uid" 3 65782272] ++
        [storage.DstCall.completeMultipart "b" "k" "uid"
          [⟨1, "pet"⟩, ⟨2, "pet"⟩, ⟨3, "pet"⟩]],
       .ok ()) := by
  refine ⟨by decide, ?_⟩
  have h := multipart_uploads_all_parts cfgDefault envS2 taskS2 "uid"
    (fun _ => "pet") (by decide) rfl rfl (fun _ => rfl) (fun _ => rfl)
    (fun _ => rfl)
  rw [h]
  rfl
